import Mathlib

/-!
Shallow embedding of the daily root-cause-analysis orchestrator
(repository `RyanSchlenz/dailyrootcauseanalysis`).

The embedded code:
* `src/HttpTrigger1/__init__.py` — `run_script`, `check_csv_files`,
  `delete_files`, `run_all_scripts`, `main` (the Azure request/response
  gateway);
* `src/HttpTrigger1/main.py` — the async `run_script` variant;
* `src/HttpTrigger1/app.py` and `src/src/app.py` — the Flask gateways:
  `sync`, `status`, `run_async_script`, `reset_sync_state`.

Modelling conventions:
* a subprocess launch is abstracted by `SubprocessOutcome` (either the
  process ran and produced an exit code, or the launch itself failed);
* a Python exception escaping a function is an `Except PyExn` result;
* the filesystem seen by the artifact verifier is a function
  `Nat → String → Bool` giving, for each polling attempt, which paths
  are present (files may appear between attempts);
* the working directory seen by the cleanup sweeper is a `List String`
  of the file names it contains;
* the persisted status file is an `Option String` (`none` = the file
  does not exist), and each write appends to an explicit write trace.
-/

/-- Outcome of trying to launch one external stage process:
either the process started and exited with `code`, or the launch itself
failed (interpreter/executable missing, cannot start). -/
inductive SubprocessOutcome where
  | exit (code : Nat)
  | launchFailure
  deriving DecidableEq, Repr

/-- A Python exception escaping a modelled function. `osError` stands for
`OSError`/`FileNotFoundError` raised by a failed process launch; `fault`
stands for any other unanticipated exception. -/
inductive PyExn where
  | osError
  | fault
  deriving DecidableEq, Repr

/-- Embedding of `run_script` from `src/HttpTrigger1/__init__.py` (lines 24-33).
`subprocess.check_call(['python3', script_path])` raises
`CalledProcessError` on a nonzero exit — caught, returns `False` — and
`OSError` when the launch fails, which the `except
subprocess.CalledProcessError` clause does not catch, so it escapes. -/
def run_script_sync : SubprocessOutcome → Except PyExn Bool
  | .exit 0 => .ok true
  | .exit (_ + 1) => .ok false
  | .launchFailure => .error .osError

/-- Embedding of `run_script` from `src/HttpTrigger1/main.py` (lines 20-39).
The `except Exception` clause catches every exception, including a
launch failure, and returns `False`; a zero return code yields `True`. -/
def run_script_async : SubprocessOutcome → Bool
  | .exit 0 => true
  | .exit (_ + 1) => false
  | .launchFailure => false

/-- The list of paths of `files` not present on disk during one polling
attempt: `[get_file_path(file) for file in files if not
os.path.isfile(get_file_path(file))]` with `present` the snapshot of
`os.path.isfile`. -/
def missing_files (present : String → Bool) (files : List String) : List String :=
  files.filter (fun f => !(present f))

/-- The retry loop of `check_csv_files` (`src/HttpTrigger1/__init__.py`
lines 36-43).  `att` is the index of the current attempt, the second
argument the number of attempts remaining; returns the result together
with the number of attempts actually performed.  On each attempt the
missing subset is computed from the filesystem snapshot `fs att`; if it
is empty the loop returns `true` at once, otherwise it sleeps `delay`
seconds and retries; after the budget is exhausted it returns `false`. -/
def checkLoop (fs : Nat → String → Bool) (files : List String) :
    Nat → Nat → Bool × Nat
  | _att, 0 => (false, 0)
  | att, n + 1 =>
    if missing_files (fs att) files = [] then (true, 1)
    else
      let r := checkLoop fs files (att + 1) n
      (r.1, r.2 + 1)

/-- Embedding of `check_csv_files(files, retries=3, delay=2)` from
`src/HttpTrigger1/__init__.py`: runs the polling loop from attempt 0
with `retries` attempts.  `delay` only controls the sleep between
attempts and has no observable effect on the result. -/
def check_csv_files (fs : Nat → String → Bool) (files : List String)
    (retries : Nat) (_delay : Nat) : Bool :=
  (checkLoop fs files 0 retries).1

/-- One orchestration event of a run, for instrumenting call counts:
the stage with index `i` was invoked, the artifact verifier was invoked,
or the cleanup sweeper was invoked. -/
inductive Event where
  | stageRun (i : Nat)
  | verifierRun
  | cleanupRun
  deriving DecidableEq, Repr

/-- The stage loop of `run_all_scripts` (`src/HttpTrigger1/__init__.py`
lines 65-68): each entry of `stages` is the boolean returned by
`run_script` for that stage; on the first `False` the loop breaks.
Returns the loop's `success` flag and the trace of stages invoked,
numbering them from `i`. -/
def runStagesLoop : Nat → List Bool → Bool × List Event
  | _, [] => (true, [])
  | i, s :: rest =>
    if s then
      let r := runStagesLoop (i + 1) rest
      (r.1, Event.stageRun i :: r.2)
    else (false, [Event.stageRun i])

/-- Embedding of `run_all_scripts` from `src/HttpTrigger1/__init__.py` (lines 62-80),
instrumented with an event trace.  Runs the stage loop, then evaluates
`success and check_csv_files(csv_files)` — by short-circuiting, the
verifier is invoked only when every stage succeeded — setting `success`
to `False` otherwise, then calls `delete_files` unconditionally and
returns `success`.  This version abstracts each stage by the boolean
`run_script` reports when it returns; runs on which `run_script` raises
instead of returning (launch failure, see `run_script_sync`) are kept by
`run_all_scripts_exc` below, where the exception propagates before the
verification and cleanup calls. -/
def run_all_scripts (stages : List Bool) (fs : Nat → String → Bool)
    (files : List String) : Bool × List Event :=
  let r := runStagesLoop 0 stages
  let v : Bool × List Event :=
    if r.1 then (check_csv_files fs files 3 2, [Event.verifierRun])
    else (false, [])
  (r.1 && v.1, r.2 ++ v.2 ++ [Event.cleanupRun])

/-- Embedding of the stage loop of `run_all_scripts` over raw subprocess
outcomes, composing `run_script_sync` (so the exceptional path is kept):
each iteration calls `run_script`, which either returns a boolean or
raises.  A returned `False` breaks the loop; a raised exception aborts
the loop exceptionally and propagates.  Returns the loop's result (or
the escaping exception) and the trace of stages invoked, numbering them
from `i`. -/
def runStagesLoopExc : Nat → List SubprocessOutcome → Except PyExn Bool × List Event
  | _, [] => (.ok true, [])
  | i, o :: rest =>
    match run_script_sync o with
    | .ok true =>
      let r := runStagesLoopExc (i + 1) rest
      (r.1, Event.stageRun i :: r.2)
    | .ok false => (.ok false, [Event.stageRun i])
    | .error e => (.error e, [Event.stageRun i])

/-- Embedding of `run_all_scripts` from `src/HttpTrigger1/__init__.py`
(lines 62-80) over raw subprocess outcomes, keeping the exception path
that `run_all_scripts` above abstracts away: when a `run_script` call
raises (launch failure), the exception propagates out of
`run_all_scripts` — there is no try/finally — before the verification
check at line 72 and before `delete_files` at line 79, so neither is
invoked on that path.  Otherwise the run proceeds exactly as in
`run_all_scripts`: verify only if every stage succeeded, then clean up
unconditionally and return the overall boolean. -/
def run_all_scripts_exc (stages : List SubprocessOutcome)
    (fs : Nat → String → Bool) (files : List String) :
    Except PyExn Bool × List Event :=
  let r := runStagesLoopExc 0 stages
  match r.1 with
  | .error e => (.error e, r.2)
  | .ok ps =>
    let v : Bool × List Event :=
      if ps then (check_csv_files fs files 3 2, [Event.verifierRun])
      else (false, [])
    (.ok (ps && v.1), r.2 ++ v.2 ++ [Event.cleanupRun])

/-- Embedding of `main` from `src/HttpTrigger1/__init__.py` (lines 83-104), reduced to
the HTTP status code it returns: `run_all_scripts()` returning `True`
yields 200, returning `False` yields 400, and any exception escaping it
is caught by the outer `except Exception` and yields 500. -/
def http_main (outcome : Except PyExn Bool) : Nat :=
  match outcome with
  | .ok true => 200
  | .ok false => 400
  | .error _ => 500

/-- Whitespace stripping on a character list: drop whitespace from the
front, then from the back. -/
def stripChars (l : List Char) : List Char :=
  ((l.dropWhile Char.isWhitespace).reverse.dropWhile Char.isWhitespace).reverse

/-- Model of Python's `str.strip()`: removes leading and trailing
whitespace. -/
def pyStrip (s : String) : String := ⟨stripChars s.data⟩

/-- Model of Python's `str.endswith(suffix)`: `suffix` is a suffix of
`s`. -/
def pyEndsWith (s suffix : String) : Bool := suffix.data.isSuffixOf s.data

/-- The literal status values persisted in `status.txt`. -/
def notStartedMsg : String := "Sync not started"

/-- Status-file value written by `begin`-style writes. -/
def runningMsg : String := "Sync running"

/-- Status-file value written on worker success. -/
def completedMsg : String := "Sync completed"

/-- Status-file value written on worker failure. -/
def failedMsg : String := "Sync failed"

/-- The sequence of status-file writes performed by the `sync` endpoint
(`src/HttpTrigger1/app.py` lines 27-47 and `src/src/app.py` lines
65-85, identical logic): if `status.txt` exists and its stripped content
is `"Sync completed"` or `"Sync running"`, `reset_sync_state()` writes
`"Sync not started"`; then `"Sync running"` is written unconditionally.
`prior` is the content of `status.txt` before the trigger (`none` = the
file does not exist). -/
def sync_writes (prior : Option String) : List String :=
  (match prior with
   | some content =>
     if pyStrip content = completedMsg || pyStrip content = runningMsg then
       [notStartedMsg]
     else []
   | none => []) ++ [runningMsg]

/-- The acknowledgment payload returned by the `sync` endpoint. -/
structure Ack where
  status : String
  message : String
  link : String
  deriving DecidableEq, Repr

/-- The `sync` endpoint (`src/HttpTrigger1/app.py` lines 27-47 and
`src/src/app.py` lines 65-85): performs its status-file writes, starts
the background worker, and immediately returns the constant JSON
acknowledgment — the response is produced before the worker runs and
never consults any run outcome. -/
def sync_trigger (prior : Option String) : List String × Ack :=
  (sync_writes prior,
   { status := "success", message := "Script task started",
     link := "/path/to/sharepoint" })

/-- Applies a sequence of status-file writes (each a full overwrite) to
the prior file state, returning the final file state. -/
def applyWrites : Option String → List String → Option String
  | prior, [] => prior
  | _, w :: rest => applyWrites (some w) rest

/-- The `status` endpoint (`src/HttpTrigger1/app.py` lines 50-58 and
`src/src/app.py` lines 88-96): reads and strips `status.txt`, reporting
`"Sync not started"` when the file does not exist. -/
def status_read : Option String → String
  | some s => pyStrip s
  | none => notStartedMsg

/-- Status-file writes performed by `run_script` of
`src/HttpTrigger1/main.py`: the function only logs and returns a
boolean; it never touches `status.txt`. -/
def run_script_async_writes (_o : SubprocessOutcome) : List String := []

/-- Status-file writes performed by `run_async_script` of
`src/HttpTrigger1/app.py` (lines 22-24): it only runs
`asyncio.run(run_script("main.py"))`, discarding the boolean result, so
its writes are exactly those of `run_script` — none. -/
def flask_worker_writes (o : SubprocessOutcome) : List String :=
  run_script_async_writes o

/-- Modelled from the spec: `run_script` of `src/src/main.py` is
imported by `src/src/app.py` but the module is absent from the sources.
Per §4.1 of the spec, a launch failure is caught and reported as
`succeeded=false`, never propagated, and success holds iff the exit
code is zero — so it returns a boolean and raises nothing (matching the
sibling `src/HttpTrigger1/main.py` implementation). -/
def run_script_spec : SubprocessOutcome → Bool
  | .exit 0 => true
  | .exit (_ + 1) => false
  | .launchFailure => false

/-- The final status-file write performed by `run_async_script` of
`src/src/app.py` (lines 45-62): the body runs
`asyncio.run(run_script("main.py"))` — whose boolean result is
discarded — then calls the Azure function and writes
`"Sync completed"`; only when an exception escapes the body
(`azureFault`, e.g. a fault inside the Azure call; `run_script` itself
never raises) does the `except` clause write `"Sync failed"`. -/
def srcApp_run_async_script (stage : SubprocessOutcome)
    (azureFault : Bool) : String :=
  let _succeeded := run_script_spec stage
  if azureFault then failedMsg else completedMsg

/-- Tracked output-file extension test: `file.endswith(csv/xlsx)` — the tracked
output-file extensions of `delete_files`. -/
def tracked (f : String) : Bool :=
  pyEndsWith f ".csv" || pyEndsWith f ".xlsx"

/-- The first loop of `delete_files` (`src/HttpTrigger1/__init__.py`
lines 49-53): for each expected file, `os.remove` it if
`os.path.isfile` — absence is a no-op. `dir` is the list of file names
in the working directory. -/
def deleteExpectedLoop : List String → List String → List String
  | [], dir => dir
  | f :: rest, dir =>
    deleteExpectedLoop rest (if dir.contains f then dir.erase f else dir)

/-- The second loop of `delete_files` (lines 55-59): iterate over the
`os.listdir` snapshot `scan`, removing every file with a tracked
extension — with no existence check, so `os.remove` on a path no longer
present raises (`.error`). -/
def scanLoop : List String → List String → Except PyExn (List String)
  | [], dir => .ok dir
  | f :: rest, dir =>
    if tracked f then
      if dir.contains f then scanLoop rest (dir.erase f)
      else .error .osError
    else scanLoop rest dir

/-- Embedding of `delete_files(files)` from `src/HttpTrigger1/__init__.py` (lines
46-59): first deletes every expected file present, then scans the
resulting directory listing and deletes every remaining file with a
tracked extension.  Returns the resulting directory contents, or an
error if an `os.remove` raised. -/
def delete_files (files : List String) (dir : List String) :
    Except PyExn (List String) :=
  let d1 := deleteExpectedLoop files dir
  scanLoop d1 d1

/-! ### Helper lemmas -/

theorem checkLoop_true_iff (fs : Nat → String → Bool) (files : List String) :
    ∀ (n att : Nat),
      ((checkLoop fs files att n).1 = true ↔
        ∃ i < n, missing_files (fs (att + i)) files = []) := by
  intro n
  induction n with
  | zero => intro att; simp [checkLoop]
  | succ m ih =>
    intro att
    by_cases h : missing_files (fs att) files = []
    · simp only [checkLoop, h, if_pos rfl]
      constructor
      · intro _
        exact ⟨0, Nat.succ_pos m, by simpa using h⟩
      · intro _; rfl
    · simp only [checkLoop, if_neg h]
      rw [ih (att + 1)]
      constructor
      · rintro ⟨i, hi, hmiss⟩
        refine ⟨i + 1, Nat.succ_lt_succ hi, ?_⟩
        have : att + 1 + i = att + (i + 1) := by omega
        rwa [this] at hmiss
      · rintro ⟨i, hi, hmiss⟩
        cases i with
        | zero => simp at hmiss; exact absurd hmiss h
        | succ j =>
          refine ⟨j, Nat.lt_of_succ_lt_succ hi, ?_⟩
          have : att + (j + 1) = att + 1 + j := by omega
          rwa [this] at hmiss

theorem checkLoop_immediate (fs : Nat → String → Bool) (files : List String)
    (att n : Nat) (h : missing_files (fs att) files = []) :
    checkLoop fs files att (n + 1) = (true, 1) := by
  simp [checkLoop, h]

theorem runStagesLoop_all (stages : List Bool) :
    ∀ i, (runStagesLoop i stages).1 = stages.all (fun b => b) := by
  induction stages with
  | nil => intro i; simp [runStagesLoop]
  | cons s rest ih =>
    intro i
    cases s with
    | true => simp [runStagesLoop, ih]
    | false => simp [runStagesLoop]

theorem runStagesLoop_fail (stages : List Bool) :
    ∀ (i k : Nat) (hk : k < stages.length),
      stages.get ⟨k, hk⟩ = false →
      (∀ j (hj : j < k), stages.get ⟨j, hj.trans hk⟩ = true) →
      runStagesLoop i stages =
        (false, (List.range (k + 1)).map (fun j => Event.stageRun (i + j))) := by
  induction stages with
  | nil => intro i k hk; exact absurd hk (by simp)
  | cons s rest ih =>
    intro i k hk hfail hprev
    cases k with
    | zero =>
      have hs : s = false := hfail
      simp [runStagesLoop, hs, List.range_succ]
    | succ m =>
      have hs : s = true := hprev 0 (Nat.succ_pos m)
      have hm : m < rest.length := Nat.lt_of_succ_lt_succ hk
      have hfail' : rest.get ⟨m, hm⟩ = false := hfail
      have hprev' : ∀ j (hj : j < m), rest.get ⟨j, hj.trans hm⟩ = true :=
        fun j hj => hprev (j + 1) (Nat.succ_lt_succ hj)
      have hrec := ih (i + 1) m hm hfail' hprev'
      simp only [runStagesLoop, hs, if_pos rfl, hrec]
      refine Prod.ext rfl ?_
      conv_rhs => rw [List.range_succ_eq_map]
      rw [List.map_cons, List.map_map]
      refine congrArg₂ List.cons rfl ?_
      apply List.map_congr_left
      intro j _
      simp only [Function.comp_apply]
      congr 1
      omega

theorem runStagesLoop_no_cleanup (stages : List Bool) :
    ∀ i, Event.cleanupRun ∉ (runStagesLoop i stages).2 := by
  induction stages with
  | nil => intro i; simp [runStagesLoop]
  | cons s rest ih =>
    intro i
    cases s with
    | true => simp [runStagesLoop]; exact ih (i + 1)
    | false => simp [runStagesLoop]

theorem run_all_scripts_result (stages : List Bool) (fs : Nat → String → Bool)
    (files : List String) :
    (run_all_scripts stages fs files).1 =
      (stages.all (fun b => b) && check_csv_files fs files 3 2) := by
  simp only [run_all_scripts]
  rw [← runStagesLoop_all stages 0]
  cases hr : (runStagesLoop 0 stages).1 <;> simp [hr]

theorem applyWrites_append_last (w : String) :
    ∀ (ws : List String) (prior : Option String),
      applyWrites prior (ws ++ [w]) = some w := by
  intro ws
  induction ws with
  | nil => intro prior; rfl
  | cons x rest ih => intro prior; exact ih (some x)

theorem runStagesLoopExc_no_cleanup (stages : List SubprocessOutcome) :
    ∀ i, Event.cleanupRun ∉ (runStagesLoopExc i stages).2 := by
  induction stages with
  | nil => intro i; simp [runStagesLoopExc]
  | cons o rest ih =>
    intro i
    cases o with
    | exit code =>
      cases code with
      | zero =>
        simp only [runStagesLoopExc, run_script_sync]
        simp only [List.mem_cons, not_or]
        exact ⟨by simp, ih (i + 1)⟩
      | succ m => simp [runStagesLoopExc, run_script_sync]
    | launchFailure => simp [runStagesLoopExc, run_script_sync]

theorem runStagesLoopExc_ok :
    ∀ stages : List SubprocessOutcome,
      (∀ o ∈ stages, o ≠ SubprocessOutcome.launchFailure) →
      ∀ i, ∃ b, (runStagesLoopExc i stages).1 = Except.ok b := by
  intro stages
  induction stages with
  | nil => intro _ i; exact ⟨true, rfl⟩
  | cons o rest ih =>
    intro h i
    cases o with
    | exit code =>
      cases code with
      | zero =>
        obtain ⟨b, hb⟩ := ih (fun p hp => h p (List.mem_cons_of_mem _ hp)) (i + 1)
        exact ⟨b, by simp [runStagesLoopExc, run_script_sync, hb]⟩
      | succ m => exact ⟨false, by simp [runStagesLoopExc, run_script_sync]⟩
    | launchFailure =>
      exact absurd rfl (h _ (List.mem_cons_self _ _))

theorem deleteExpectedLoop_sublist :
    ∀ (files dir : List String), List.Sublist (deleteExpectedLoop files dir) dir := by
  intro files
  induction files with
  | nil => intro dir; exact List.Sublist.refl dir
  | cons f rest ih =>
    intro dir
    simp only [deleteExpectedLoop]
    by_cases h : dir.contains f
    · rw [if_pos h]
      exact (ih (dir.erase f)).trans (List.erase_sublist f dir)
    · rw [if_neg h]
      exact ih dir

theorem deleteExpectedLoop_nodup (files dir : List String) (h : dir.Nodup) :
    (deleteExpectedLoop files dir).Nodup :=
  (deleteExpectedLoop_sublist files dir).nodup h

theorem deleteExpectedLoop_not_mem :
    ∀ (files dir : List String), dir.Nodup →
      ∀ f ∈ files, f ∉ deleteExpectedLoop files dir := by
  intro files
  induction files with
  | nil =>
    intro dir _ f hf
    exact absurd hf (List.not_mem_nil f)
  | cons g rest ih =>
    intro dir hnd f hf
    simp only [deleteExpectedLoop]
    by_cases hg : dir.contains g
    · rw [if_pos hg]
      rcases List.mem_cons.mp hf with hfg | hfr
      · subst hfg
        intro hmem
        exact hnd.not_mem_erase
          ((deleteExpectedLoop_sublist rest (dir.erase f)).subset hmem)
      · exact ih (dir.erase g) (hnd.erase g) f hfr
    · rw [if_neg hg]
      rcases List.mem_cons.mp hf with hfg | hfr
      · subst hfg
        intro hmem
        exact hg (List.elem_iff.mpr
          ((deleteExpectedLoop_sublist rest dir).subset hmem))
      · exact ih dir hnd f hfr

theorem deleteExpectedLoop_id :
    ∀ (files dir : List String), (∀ f ∈ files, f ∉ dir) →
      deleteExpectedLoop files dir = dir := by
  intro files
  induction files with
  | nil => intro dir _; rfl
  | cons g rest ih =>
    intro dir h
    have hg : ¬ dir.contains g = true := fun hc =>
      h g (List.mem_cons_self g rest) (List.elem_iff.mp hc)
    simp only [deleteExpectedLoop, if_neg hg]
    exact ih dir (fun f hf => h f (List.mem_cons_of_mem g hf))

theorem scanLoop_eq :
    ∀ (l dir : List String), List.Sublist l dir → dir.Nodup →
      scanLoop l dir =
        Except.ok (dir.filter (fun g => !(l.contains g && tracked g))) := by
  intro l
  induction l with
  | nil =>
    intro dir _ _
    simp [scanLoop]
  | cons f rest ih =>
    intro dir hsub hnd
    by_cases hf : tracked f = true
    · have hfd : f ∈ dir := hsub.subset (List.mem_cons_self f rest)
      have hcont : dir.contains f = true := List.elem_iff.mpr hfd
      have hsub' : List.Sublist rest (dir.erase f) := by
        have h := hsub.erase f
        rwa [List.erase_cons_head f rest] at h
      simp only [scanLoop]
      rw [if_pos hf, if_pos hcont, ih (dir.erase f) hsub' (hnd.erase f)]
      congr 1
      rw [hnd.erase_eq_filter f, List.filter_filter]
      apply List.filter_congr
      intro g _
      by_cases hgf : g = f
      · subst hgf
        simp [hf, List.contains_cons]
      · simp [hgf, List.contains_cons]
    · have hf' : tracked f = false := Bool.eq_false_iff.mpr hf
      have hsub' : List.Sublist rest dir :=
        (List.sublist_cons_self f rest).trans hsub
      simp only [scanLoop]
      rw [if_neg hf, ih dir hsub' hnd]
      congr 1
      apply List.filter_congr
      intro g _
      by_cases hgf : g = f
      · subst hgf
        simp [hf', List.contains_cons]
      · simp [hgf, List.contains_cons]

theorem delete_files_ok (files dir : List String) (hnd : dir.Nodup) :
    delete_files files dir =
      Except.ok ((deleteExpectedLoop files dir).filter (fun g => !(tracked g))) := by
  have hnd0 := deleteExpectedLoop_nodup files dir hnd
  simp only [delete_files]
  rw [scanLoop_eq _ _ (List.Sublist.refl _) hnd0]
  congr 1
  apply List.filter_congr
  intro g hg
  have hc : (deleteExpectedLoop files dir).contains g = true := List.elem_iff.mpr hg
  show (!((deleteExpectedLoop files dir).contains g && tracked g)) = (!(tracked g))
  rw [hc, Bool.true_and]

/-! ### Claim theorems -/

/-- C1: for every stage list and every index `k`, if stage `k` is the
first stage whose execution does not succeed, then stages `k+1..N` are
never invoked, the overall run result is failure, and the artifact
verifier is not invoked; an empty stage list yields pipeline success and
verification then proceeds. -/
theorem claim_C1_fail_fast_abort (stages : List Bool) (fs : Nat → String → Bool)
    (files : List String) (k : Nat) (hk : k < stages.length)
    (hfail : stages.get ⟨k, hk⟩ = false)
    (hprev : ∀ j (hj : j < k), stages.get ⟨j, hj.trans hk⟩ = true) :
    ((∀ j, k < j → Event.stageRun j ∉ (run_all_scripts stages fs files).2)
      ∧ (run_all_scripts stages fs files).1 = false
      ∧ Event.verifierRun ∉ (run_all_scripts stages fs files).2)
    ∧ ((runStagesLoop 0 ([] : List Bool)).1 = true
      ∧ Event.verifierRun ∈ (run_all_scripts [] fs files).2) := by
  have hrun := runStagesLoop_fail stages 0 k hk hfail hprev
  refine ⟨⟨?_, ?_, ?_⟩, ?_, ?_⟩
  · intro j hj
    simp only [run_all_scripts, hrun]
    simp only [List.mem_append, List.mem_map, List.mem_range]
    rintro ((⟨m, hm, hev⟩ | hv) | hc)
    · cases hev
      omega
    · simp at hv
    · simp at hc
  · simp [run_all_scripts, hrun]
  · simp only [run_all_scripts, hrun]
    simp
  · rfl
  · simp [run_all_scripts, runStagesLoop]

/-- Witness for C1 at the concrete stage list `[true, false, true]` with
the failure at index 1. -/
theorem claim_C1_witness :
    ((∀ j, 1 < j → Event.stageRun j ∉
        (run_all_scripts [true, false, true] (fun _ _ => true) ["x.csv"]).2)
      ∧ (run_all_scripts [true, false, true] (fun _ _ => true) ["x.csv"]).1 = false
      ∧ Event.verifierRun ∉
        (run_all_scripts [true, false, true] (fun _ _ => true) ["x.csv"]).2)
    ∧ ((runStagesLoop 0 ([] : List Bool)).1 = true
      ∧ Event.verifierRun ∈
        (run_all_scripts [] (fun _ _ => true) ["x.csv"]).2) :=
  claim_C1_fail_fast_abort [true, false, true] (fun _ _ => true) ["x.csv"] 1
    (by decide) (by rfl)
    (fun j hj => by
      have hj0 : j = 0 := Nat.lt_one_iff.mp hj
      subst hj0
      rfl)

/-- C2: `check_csv_files` with the default budget of 3 attempts returns
true iff on some attempt (at most 3) the missing subset is empty; when
the missing subset is empty on the first attempt it returns true after
exactly one attempt, and when every one of the 3 attempts sees a
nonempty missing subset it returns false. -/
theorem claim_C2_verify_iff (fs : Nat → String → Bool) (files : List String) :
    (check_csv_files fs files 3 2 = true ↔
      ∃ i < 3, missing_files (fs i) files = [])
    ∧ (missing_files (fs 0) files = [] → checkLoop fs files 0 3 = (true, 1))
    ∧ ((∀ i < 3, missing_files (fs i) files ≠ []) →
      check_csv_files fs files 3 2 = false) := by
  refine ⟨?_, ?_, ?_⟩
  · rw [check_csv_files, checkLoop_true_iff fs files 3 0]
    simp only [Nat.zero_add]
  · intro h
    exact checkLoop_immediate fs files 0 2 h
  · intro h
    rw [check_csv_files, Bool.eq_false_iff]
    intro htrue
    obtain ⟨i, hi, hm⟩ := (checkLoop_true_iff fs files 3 0).mp htrue
    rw [Nat.zero_add] at hm
    exact h i hi hm

/-- Witness for C2: with no file ever present, every attempt misses and
the verifier returns false. -/
theorem claim_C2_witness :
    (∀ i < 3, missing_files ((fun _ _ => false) i) ["a.csv"] ≠ []) ∧
      check_csv_files (fun _ _ => false) ["a.csv"] 3 2 = false :=
  ⟨by decide, (claim_C2_verify_iff (fun _ _ => false) ["a.csv"]).2.2 (by decide)⟩

/-- C5 counterexample: a run whose single stage cannot be launched
(`run_script` raises `OSError`) aborts `run_all_scripts` exceptionally
before line 79, so the cleanup sweeper is never invoked on that run —
its invocation count is 0, not exactly once. -/
theorem claim_C5_counterexample :
    (run_all_scripts_exc [SubprocessOutcome.launchFailure] (fun _ _ => true)
        ["x.csv"]).1 = Except.error PyExn.osError
    ∧ (run_all_scripts_exc [SubprocessOutcome.launchFailure] (fun _ _ => true)
        ["x.csv"]).2.count Event.cleanupRun = 0
    ∧ (run_all_scripts_exc [SubprocessOutcome.launchFailure] (fun _ _ => true)
        ["x.csv"]).2.count Event.cleanupRun ≠ 1 :=
  ⟨rfl, rfl, by decide⟩

/-- C5 (amended): on every run in which each `run_script` call returns a
boolean (no stage launch failure raises — exit codes and the filesystem
are otherwise arbitrary), the cleanup sweeper is invoked exactly once
before `run_all_scripts` returns; on a run where a launch failure makes
`run_script` raise, the exception escapes `run_all_scripts` before
`delete_files`, and cleanup is skipped entirely. -/
theorem claim_C5_cleanup_once_unless_escape (stages : List SubprocessOutcome)
    (fs : Nat → String → Bool) (files : List String) :
    ((∀ o ∈ stages, o ≠ SubprocessOutcome.launchFailure) →
      (run_all_scripts_exc stages fs files).2.count Event.cleanupRun = 1)
    ∧ (∀ e : PyExn, (run_all_scripts_exc stages fs files).1 = Except.error e →
      (run_all_scripts_exc stages fs files).2.count Event.cleanupRun = 0) := by
  have h1 : Event.cleanupRun ∉ (runStagesLoopExc 0 stages).2 :=
    runStagesLoopExc_no_cleanup stages 0
  constructor
  · intro h
    obtain ⟨b, hb⟩ := runStagesLoopExc_ok stages h 0
    simp only [run_all_scripts_exc, hb]
    cases b <;> simp [List.count_append, List.count_eq_zero.mpr h1]
  · intro e he
    simp only [run_all_scripts_exc] at he ⊢
    cases hr : (runStagesLoopExc 0 stages).1 with
    | error e2 =>
      exact List.count_eq_zero.mpr h1
    | ok ps =>
      rw [hr] at he
      simp at he

/-- Witness for C5 at two launchable stages, exit codes 0 then 1. -/
theorem claim_C5_witness :
    (∀ o ∈ [SubprocessOutcome.exit 0, SubprocessOutcome.exit 1],
        o ≠ SubprocessOutcome.launchFailure)
    ∧ (run_all_scripts_exc [SubprocessOutcome.exit 0, SubprocessOutcome.exit 1]
        (fun _ _ => true) ["x.csv"]).2.count Event.cleanupRun = 1 :=
  ⟨by decide,
    (claim_C5_cleanup_once_unless_escape
        [SubprocessOutcome.exit 0, SubprocessOutcome.exit 1]
        (fun _ _ => true) ["x.csv"]).1 (by decide)⟩

/-- C7: the request/response gateway returns the 2xx status 200 when
every stage succeeded and verification passed, the 4xx status 400 when a
stage or verification failed, and the 5xx status 500 when an unhandled
fault occurred — three distinct status-code classes covering all
outcomes. -/
theorem claim_C7_status_classes (stages : List Bool) (fs : Nat → String → Bool)
    (files : List String) :
    (stages.all (fun b => b) = true → check_csv_files fs files 3 2 = true →
      http_main (Except.ok (run_all_scripts stages fs files).1) = 200)
    ∧ ((stages.all (fun b => b) = false ∨ check_csv_files fs files 3 2 = false) →
      http_main (Except.ok (run_all_scripts stages fs files).1) = 400)
    ∧ (∀ e : PyExn, http_main (Except.error e) = 500)
    ∧ http_main (Except.ok true) / 100 = 2
    ∧ http_main (Except.ok false) / 100 = 4
    ∧ (∀ e : PyExn, http_main (Except.error e) / 100 = 5) := by
  refine ⟨?_, ?_, ?_, rfl, rfl, ?_⟩
  · intro h1 h2
    rw [run_all_scripts_result, h1, h2]
    rfl
  · intro h
    rw [run_all_scripts_result]
    rcases h with h | h
    · rw [h]
      rfl
    · rw [h, Bool.and_false]
      rfl
  · intro e
    rfl
  · intro e
    cases e <;> decide

/-- Witness for C7: one succeeding stage and no expected artifacts give
status 200. -/
theorem claim_C7_witness :
    ([true].all (fun b => b) = true
      ∧ check_csv_files (fun _ _ => true) [] 3 2 = true)
    ∧ http_main (Except.ok (run_all_scripts [true] (fun _ _ => true) []).1) = 200 :=
  ⟨⟨by decide, by decide⟩,
    (claim_C7_status_classes [true] (fun _ _ => true) []).1 (by decide) (by decide)⟩

/-- C8: the cleanup sweeper is idempotent and total on every working
directory (a directory listing has no duplicate names): sweeping never
raises, afterwards no file with a tracked output extension remains, and
sweeping the result again never raises and changes nothing. -/
theorem claim_C8_cleanup_idempotent_total (files dir : List String)
    (hnd : dir.Nodup) :
    ∃ d1, delete_files files dir = Except.ok d1
      ∧ (∀ f ∈ d1, tracked f = false)
      ∧ delete_files files d1 = Except.ok d1 := by
  refine ⟨(deleteExpectedLoop files dir).filter (fun g => !(tracked g)),
    delete_files_ok files dir hnd, ?_, ?_⟩
  · intro f hf
    have h := (List.mem_filter.mp hf).2
    simpa using h
  · have hnd1 : ((deleteExpectedLoop files dir).filter (fun g => !(tracked g))).Nodup :=
      (List.filter_sublist _).nodup (deleteExpectedLoop_nodup files dir hnd)
    rw [delete_files_ok files _ hnd1]
    have hid : deleteExpectedLoop files
        ((deleteExpectedLoop files dir).filter (fun g => !(tracked g))) =
        (deleteExpectedLoop files dir).filter (fun g => !(tracked g)) := by
      apply deleteExpectedLoop_id
      intro f hf hmem
      exact deleteExpectedLoop_not_mem files dir hnd f hf
        ((List.filter_sublist _).subset hmem)
    rw [hid]
    congr 1
    rw [List.filter_eq_self]
    intro a ha
    exact (List.mem_filter.mp ha).2

/-- Witness for C8 on a concrete directory holding one expected
artifact, one stray tracked file and one untracked file. -/
theorem claim_C8_witness :
    (["a.csv", "b.xlsx", "c.txt"] : List String).Nodup
    ∧ ∃ d1, delete_files ["a.csv"] ["a.csv", "b.xlsx", "c.txt"] = Except.ok d1
      ∧ (∀ f ∈ d1, tracked f = false)
      ∧ delete_files ["a.csv"] d1 = Except.ok d1 :=
  ⟨by decide,
    claim_C8_cleanup_idempotent_total ["a.csv"] ["a.csv", "b.xlsx", "c.txt"]
      (by decide)⟩

/-- C3 counterexample: in `run_async_script` of `src/src/app.py`, a
stage exiting nonzero (Scenario B) with no other fault ends with the
status file holding `"Sync completed"`, not `"Sync failed"`: the boolean
returned by `run_script` is discarded. -/
theorem claim_C3_counterexample :
    srcApp_run_async_script (SubprocessOutcome.exit 1) false = completedMsg
      ∧ completedMsg ≠ failedMsg :=
  ⟨rfl, by decide⟩

/-- C3 amended: the final status write of `run_async_script` in
`src/src/app.py` does not depend on the stage outcome: it is
`"Sync failed"` exactly when an exception escapes the worker body and
`"Sync completed"` otherwise — in particular a run whose stage exited
nonzero is still persisted as Completed. -/
theorem claim_C3_finish_write (s₁ s₂ : SubprocessOutcome) (azureFault : Bool) :
    (srcApp_run_async_script s₁ azureFault = srcApp_run_async_script s₂ azureFault)
    ∧ (srcApp_run_async_script s₁ true = failedMsg)
    ∧ (srcApp_run_async_script s₁ false = completedMsg) :=
  ⟨rfl, rfl, rfl⟩

/-- C4 counterexample: `run_script` of `src/HttpTrigger1/__init__.py`
propagates a launch failure as an exception instead of returning
`succeeded=false` — its handler catches only `CalledProcessError`. -/
theorem claim_C4_counterexample :
    run_script_sync SubprocessOutcome.launchFailure = Except.error PyExn.osError
      ∧ run_script_sync SubprocessOutcome.launchFailure ≠ Except.ok false :=
  ⟨rfl, by simp [run_script_sync]⟩

/-- C4 amended: the async stage executor (`src/HttpTrigger1/main.py`)
catches every failure, launch failures included, and reports
`succeeded=false`; the synchronous one (`src/HttpTrigger1/__init__.py`)
converts only nonzero exits to `succeeded=false`, while a launch failure
escapes as an `OSError` and reaches the gateway's outermost fault
handler, which maps it to the 500 fault status. -/
theorem claim_C4_launch_failure (c : Nat) (hc : c ≠ 0) :
    run_script_async SubprocessOutcome.launchFailure = false
    ∧ (∀ o : SubprocessOutcome,
        run_script_async o = true ↔ o = SubprocessOutcome.exit 0)
    ∧ run_script_sync (SubprocessOutcome.exit 0) = Except.ok true
    ∧ run_script_sync (SubprocessOutcome.exit c) = Except.ok false
    ∧ run_script_sync SubprocessOutcome.launchFailure = Except.error PyExn.osError
    ∧ http_main (Except.error PyExn.osError) = 500 := by
  refine ⟨rfl, ?_, rfl, ?_, rfl, rfl⟩
  · intro o
    cases o with
    | exit code =>
      cases code with
      | zero => simp [run_script_async]
      | succ m => simp [run_script_async]
    | launchFailure => simp [run_script_async]
  · cases c with
    | zero => exact absurd rfl hc
    | succ m => rfl

/-- Witness for C4 at exit code 1. -/
theorem claim_C4_witness :
    (1 : Nat) ≠ 0 ∧ run_script_sync (SubprocessOutcome.exit 1) = Except.ok false :=
  ⟨by decide, (claim_C4_launch_failure 1 (by decide)).2.2.2.1⟩

/-- C6 counterexample: triggering from the terminal state
`"Sync failed"` does not pass through `"Sync not started"`: the `sync`
endpoints reset only when the prior status is `"Sync completed"` or
`"Sync running"`, so the write sequence from Failed is just
`["Sync running"]`. -/
theorem claim_C6_counterexample :
    sync_writes (some failedMsg) = [runningMsg]
      ∧ notStartedMsg ∉ sync_writes (some failedMsg) := by
  constructor
  · decide
  · decide

/-- C6 amended: a trigger from prior state Completed — or one arriving
while the state is already Running — first writes NotStarted and then
Running; a trigger from prior state Failed or NotStarted, or with no
status file, writes Running directly; in every case the trigger is
accepted and the persisted state afterwards is Running. -/
theorem claim_C6_transitions (prior : Option String) :
    sync_writes (some completedMsg) = [notStartedMsg, runningMsg]
    ∧ sync_writes (some runningMsg) = [notStartedMsg, runningMsg]
    ∧ sync_writes (some failedMsg) = [runningMsg]
    ∧ sync_writes (some notStartedMsg) = [runningMsg]
    ∧ sync_writes none = [runningMsg]
    ∧ status_read (applyWrites prior (sync_writes prior)) = runningMsg := by
  refine ⟨by decide, by decide, by decide, by decide, rfl, ?_⟩
  rw [sync_writes.eq_def, applyWrites_append_last]
  decide

/-- C9: the fire-and-forget trigger's response is the fixed success
acknowledgment, identical for every prior state — computed before the
background worker runs, it cannot depend on the run outcome, so failure
is never reported synchronously by this endpoint. -/
theorem claim_C9_ack_fixed (prior other : Option String) :
    (sync_trigger prior).2 =
      { status := "success", message := "Script task started",
        link := "/path/to/sharepoint" }
    ∧ (sync_trigger prior).2 = (sync_trigger other).2
    ∧ (sync_trigger prior).2.status = "success" :=
  ⟨rfl, rfl, rfl⟩

/-- C10: in the `src/HttpTrigger1/app.py` Flask variant, the background
worker performs no status-file write whatever the script outcome, so
after a trigger the persisted state remains `"Sync running"` regardless
of the run's outcome, until a later trigger overwrites it. -/
theorem claim_C10_state_stuck_running (prior : Option String)
    (o : SubprocessOutcome) :
    flask_worker_writes o = []
    ∧ status_read
        (applyWrites prior (sync_writes prior ++ flask_worker_writes o)) =
      runningMsg := by
  refine ⟨rfl, ?_⟩
  show status_read (applyWrites prior (sync_writes prior ++ [])) = runningMsg
  rw [List.append_nil, sync_writes.eq_def, applyWrites_append_last]
  decide
